import Mathlib

/-!
Verification development for the CollegeForecastPro analytics core.

Two components are embedded here, translated from the Python source:

* the incremental ELO rating update, from the per-game loop body of
  `ELOTeamPerformanceAnalyzer.calculate_historical_elo`
  (`data_analysis/elo_team_performance_analysis.py`, lines 84-122), together
  with the bulk fold over a chronological game list; and
* the additive factor-scoring prediction model, from
  `RicksPicksPredictionEngine` (`data_analysis/prediction_algorithm.py`):
  `calculate_weather_factor`, `calculate_conference_factor`,
  `calculate_home_field_factor`, `calculate_betting_line_value`, and
  `generate_prediction`.

Numeric modelling: the Python code computes with IEEE floats; the embedding
idealises this as exact arithmetic.  The ELO update needs `Real.log` and a
real power of 10, so it lives over `ℝ`; the prediction engine uses only
field operations, `abs`, `min` and comparisons on decimal literals, so it is
embedded over `ℚ`, keeping every prediction computation kernel-evaluable.
String annotation lists (`impact` / `key_factors` / `prediction` text) carry
no numeric content and are omitted; only the numeric scores, the recommended
side, the edge and the confidence label are modelled.
-/

/-! ## Rating engine (elo_team_performance_analysis.py) -/

/-- Margin-of-victory multiplier, from lines 109-111 of
`calculate_historical_elo`:
`margin = abs(home_score - away_score); mov_multiplier = np.log(max(margin, 1)) + 1`.
Scores are the two final scores (natural numbers). -/
noncomputable def movMultiplier (home_score away_score : ℕ) : ℝ :=
  Real.log (max |(home_score : ℝ) - (away_score : ℝ)| 1) + 1

/-- Actual outcome pair, from lines 101-107 of `calculate_historical_elo`:
`(1, 0)` on a home win, `(0, 1)` on an away win, `(0.5, 0.5)` on a tie. -/
def actualScores (home_score away_score : ℕ) : ℝ × ℝ :=
  if home_score > away_score then (1, 0)
  else if away_score > home_score then (0, 1)
  else (0.5, 0.5)

/-- One per-game rating update, from lines 91-118 of
`calculate_historical_elo`, parameterised by the K-factor (the function's
`k_factor` argument, default 32) and by the home-field bonus, which the
source hard-codes as the literal `65` on line 95 (the spec treats it as
configuration).  Returns the pair of new (home, away) ratings. -/
noncomputable def processGameHFB (k_factor home_field_bonus home_elo away_elo : ℝ)
    (home_score away_score : ℕ) : ℝ × ℝ :=
  let adjusted_home_elo := home_elo + home_field_bonus
  let home_expected := 1 / (1 + (10 : ℝ) ^ ((away_elo - adjusted_home_elo) / 400))
  let away_expected := 1 - home_expected
  let actual := actualScores home_score away_score
  let mov_multiplier := movMultiplier home_score away_score
  let home_change := k_factor * mov_multiplier * (actual.1 - home_expected)
  let away_change := k_factor * mov_multiplier * (actual.2 - away_expected)
  (home_elo + home_change, away_elo + away_change)

/-- The update exactly as the source runs it: home-field bonus fixed to the
literal `65` of line 95. -/
noncomputable def processGame (k_factor home_elo away_elo : ℝ)
    (home_score away_score : ℕ) : ℝ × ℝ :=
  processGameHFB k_factor 65 home_elo away_elo home_score away_score

/-- A completed game row as consumed by the rating fold.  The SQL query of
`load_data` filters on `completed = true` and both scores `IS NOT NULL`, so
the fold sees both final scores present on every row. -/
structure GameRec where
  home_team_id : ℕ
  away_team_id : ℕ
  home_team_score : ℕ
  away_team_score : ℕ
deriving DecidableEq, Repr

/-- Rating state: the `team_elos` dictionary, as an association list from
team id to current rating. -/
def RatingState := List (ℕ × ℝ)

/-- Write a team's new rating back into the state (dictionary assignment
`team_elos[id] = r`). -/
def setRating (id : ℕ) (r : ℝ) : RatingState → RatingState
  | [] => []
  | (i, v) :: rest => if i = id then (i, r) :: rest else (i, v) :: setRating id r rest

/-- Association-list lookup standing for Python dict indexing
`team_elos[id]`; `none` corresponds to a `KeyError`. -/
def findRating (id : ℕ) : RatingState → Option ℝ
  | [] => none
  | (i, v) :: rest => if i = id then some v else findRating id rest

/-- The chronological fold of lines 84-122 of `calculate_historical_elo`.
Python indexes `team_elos[home_id]` / `team_elos[away_id]` directly; a game
whose team id is absent raises `KeyError`, which propagates out of the loop
and aborts the whole run.  That abort is modelled as `Except.error id`: no
later game is processed and no skip report is produced.  The `elo_history`
append (lines 121-122) is diagnostic-only and not modelled. -/
noncomputable def replay (state : RatingState) : List GameRec → Except ℕ RatingState
  | [] => Except.ok state
  | g :: rest =>
    match findRating g.home_team_id state, findRating g.away_team_id state with
    | some home_elo, some away_elo =>
      let updated := processGame 32 home_elo away_elo g.home_team_score g.away_team_score
      replay (setRating g.away_team_id updated.2 (setRating g.home_team_id updated.1 state)) rest
    | none, _ => Except.error g.home_team_id
    | some _, none => Except.error g.away_team_id

/-! ## Factor scoring model (prediction_algorithm.py) -/

/-- `self.conference_power_ratings` (lines 33-45), with the `.get(conf, 0)`
default for unlisted conferences. -/
def conference_power_ratings (conf : String) : ℚ :=
  match conf with
  | "SEC" => 5.7
  | "Big Ten" => 4.1
  | "Big 12" => 3.0
  | "ACC" => 2.9
  | "Pac-12" => 0.5
  | "Mountain West" => -0.2
  | "American Athletic" => -0.8
  | "Sun Belt" => 1.2
  | "Conference USA" => 1.5
  | "Mid-American" => -1.1
  | "FBS Independents" => -4.5
  | _ => 0

/-- The `power5` list of `calculate_conference_factor` (line 110). -/
def power5 : List String := ["SEC", "Big Ten", "Big 12", "ACC", "Pac-12"]

/-- `calculate_weather_factor` (lines 47-90), numeric score only.  The dome
branch adds a flat `+4.0` and skips every other check; otherwise the
temperature tiers, wind tiers and precipitation penalty accumulate.  The
Python guard `if precipitation and precipitation > 0` is falsy both for
`None` and for `0.0`, hence the strict `0 < p` test. -/
def calculate_weather_factor (temperature wind_speed : Option ℚ) (is_dome : Bool)
    (precipitation : Option ℚ) : ℚ :=
  if is_dome then 4
  else
    (match temperature with
     | some t => if t < 32 then -2.5 else if t < 40 then -1 else if t > 85 then -0.5 else 0
     | none => 0)
    +
    (match wind_speed with
     | some w => if w > 20 then -2 else if w > 15 then -1 else 0
     | none => 0)
    +
    (match precipitation with
     | some p => if 0 < p then -1.5 else 0
     | none => 0)

/-- `calculate_conference_factor` (lines 92-125), numeric score only:
power-rating differential scaled by `0.3`, plus a `±1.5` adjustment when
exactly one side is in the `power5` list. -/
def calculate_conference_factor (home_conference away_conference : String) : ℚ :=
  let differential := conference_power_ratings home_conference
    - conference_power_ratings away_conference
  let factor_score := differential * 0.3
  let home_p5 := power5.contains home_conference
  let away_p5 := power5.contains away_conference
  if home_p5 && !away_p5 then factor_score + 1.5
  else if away_p5 && !home_p5 then factor_score - 1.5
  else factor_score

/-- `calculate_home_field_factor` (lines 127-146): `0` at a neutral site,
flat `+2.0` otherwise. -/
def calculate_home_field_factor (is_neutral_site : Bool) : ℚ :=
  if is_neutral_site then 0 else 2

/-- `calculate_betting_line_value` (lines 148-176), numeric score only:
`0` with no line; otherwise `min(|predicted - vegas| * 0.5, 4.0)` when the
absolute difference reaches `3`, else `0`.  The direction comparison on
line 167 only selects an annotation string; the score itself carries no
sign. -/
def calculate_betting_line_value (vegas_spread : Option ℚ) (predicted_spread : ℚ) : ℚ :=
  match vegas_spread with
  | none => 0
  | some vegas =>
    let line_differential := |predicted_spread - vegas|
    if line_differential ≥ 3 then min (line_differential * 0.5) 4 else 0

/-- Context record bundling the keyword arguments of `generate_prediction`
(lines 178-185).  Team name strings are omitted: the recommended side is
modelled as `Option Bool` (`some true` = home, `some false` = away). -/
structure PredContext where
  home_conference : String
  away_conference : String
  temperature : Option ℚ
  wind_speed : Option ℚ
  is_dome : Bool
  vegas_spread : Option ℚ
  precipitation : Option ℚ
  is_neutral_site : Bool

/-- Confidence label of lines 208-213. -/
inductive Confidence where
  | low
  | medium
  | high
deriving DecidableEq, Repr

/-- The numeric fields of the dictionary returned by `generate_prediction`
(lines 229-243). -/
structure Prediction where
  spread : ℚ
  confidence : Confidence
  recommended_bet : Option Bool
  edge : Option ℚ
  weather : ℚ
  conference : ℚ
  home_field : ℚ
  betting_value : ℚ

/-- `base_prediction` local of `generate_prediction` (line 196): the
pre-market sum home-field + conference + weather. -/
def base_prediction (ctx : PredContext) : ℚ :=
  calculate_home_field_factor ctx.is_neutral_site
    + calculate_conference_factor ctx.home_conference ctx.away_conference
    + calculate_weather_factor ctx.temperature ctx.wind_speed ctx.is_dome ctx.precipitation

/-- `total_score` local of `generate_prediction` (line 202): base prediction
plus the betting-line-value factor. -/
def total_score (ctx : PredContext) : ℚ :=
  base_prediction ctx + calculate_betting_line_value ctx.vegas_spread (base_prediction ctx)

/-- `factor_count` local of `generate_prediction` (lines 205-206): how many
of the four factor scores are non-zero. -/
def factor_count (ctx : PredContext) : ℕ :=
  List.countP (fun s => decide (s ≠ 0))
    [calculate_weather_factor ctx.temperature ctx.wind_speed ctx.is_dome ctx.precipitation,
     calculate_conference_factor ctx.home_conference ctx.away_conference,
     calculate_home_field_factor ctx.is_neutral_site,
     calculate_betting_line_value ctx.vegas_spread (base_prediction ctx)]

/-- Confidence computation of lines 208-213. -/
def confidence_calc (ctx : PredContext) : Confidence :=
  if 6 < |total_score ctx| ∧ 3 ≤ factor_count ctx then Confidence.high
  else if 3 < |total_score ctx| ∧ 2 ≤ factor_count ctx then Confidence.medium
  else Confidence.low

/-- Recommended-bet computation of lines 222-227.  Python evaluates
`vegas_spread and <comparison>`: `None` and `0.0` are both falsy, so a
missing line and a zero line each yield `None`; with a truthy line the home
side is recommended when `total_score > vegas_spread + 1.5` (home-favored
branch) and the away side when `abs(total_score) > abs(vegas_spread) + 1.5`
(other branch). -/
def recommended_bet_calc (ctx : PredContext) : Option Bool :=
  if 0 < total_score ctx then
    match ctx.vegas_spread with
    | some v => if v ≠ 0 ∧ v + 1.5 < total_score ctx then some true else none
    | none => none
  else
    match ctx.vegas_spread with
    | some v => if v ≠ 0 ∧ |v| + 1.5 < |total_score ctx| then some false else none
    | none => none

/-- Edge output of line 236: `abs(total_score - (vegas_spread or 0)) if
vegas_spread else None`; again `0.0` is falsy, so a zero line produces
`None`. -/
def edge_calc (ctx : PredContext) : Option ℚ :=
  match ctx.vegas_spread with
  | some v => if v ≠ 0 then some |total_score ctx - v| else none
  | none => none

/-- `generate_prediction` (lines 178-243), assembling the modelled fields of
the returned dictionary. -/
def generate_prediction (ctx : PredContext) : Prediction :=
  { spread := total_score ctx
    confidence := confidence_calc ctx
    recommended_bet := recommended_bet_calc ctx
    edge := edge_calc ctx
    weather := calculate_weather_factor ctx.temperature ctx.wind_speed ctx.is_dome ctx.precipitation
    conference := calculate_conference_factor ctx.home_conference ctx.away_conference
    home_field := calculate_home_field_factor ctx.is_neutral_site
    betting_value := calculate_betting_line_value ctx.vegas_spread (base_prediction ctx) }

/-- Claim C7's reading of the market-value factor, following the spec's
words: same magnitude `min(0.5 * diff, 4.0)` past the 3-point threshold, but
signed toward the side the model favors relative to the market (the code's
own line-167 comparison `predicted_spread > vegas_spread` names that side).
Declared only to be compared against `calculate_betting_line_value`. -/
def bettingLineValueClaimed (vegas_spread : Option ℚ) (predicted_spread : ℚ) : ℚ :=
  match vegas_spread with
  | none => 0
  | some vegas =>
    let line_differential := |predicted_spread - vegas|
    if line_differential ≥ 3 then
      if predicted_spread > vegas then min (line_differential * 0.5) 4
      else -(min (line_differential * 0.5) 4)
    else 0

/-! ## Claims about the rating engine -/

/-- C1: for every game with both final scores present, the update computes
`expected_home = 1 / (1 + 10^((away_rating - (home_rating + 65)) / 400))`,
`expected_away = 1 - expected_home`, deltas `K * mov * (actual - expected)`
with the default `K = 32`, and writes `rating + delta` back for both
teams. -/
theorem C1_process_game_update_formula (home_elo away_elo : ℝ) (hs as_ : ℕ) :
    processGame 32 home_elo away_elo hs as_ =
      (home_elo + 32 * movMultiplier hs as_ *
         ((actualScores hs as_).1 -
           1 / (1 + (10 : ℝ) ^ ((away_elo - (home_elo + 65)) / 400))),
       away_elo + 32 * movMultiplier hs as_ *
         ((actualScores hs as_).2 -
           (1 - 1 / (1 + (10 : ℝ) ^ ((away_elo - (home_elo + 65)) / 400))))) := rfl

/-- C2: the margin-of-victory multiplier equals
`ln(max(|home_score - away_score|, 1)) + 1` and is always at least `1`,
including for a 0-point margin. -/
theorem C2_mov_multiplier_formula_and_ge_one (hs as_ : ℕ) :
    movMultiplier hs as_ = Real.log (max |(hs : ℝ) - (as_ : ℝ)| 1) + 1 ∧
      1 ≤ movMultiplier hs as_ := by
  refine ⟨rfl, ?_⟩
  have h1 : (1 : ℝ) ≤ max |(hs : ℝ) - (as_ : ℝ)| 1 := le_max_right _ _
  have h2 : 0 ≤ Real.log (max |(hs : ℝ) - (as_ : ℝ)| 1) := Real.log_nonneg h1
  simp only [movMultiplier]
  linarith

/-- C4: with the home-field bonus set to `0`, the two per-game deltas are
exact negatives of one another: `Δhome = -Δaway` (zero-sum transfer), for
any K-factor, ratings and final scores. -/
theorem C4_zero_sum_transfer_at_zero_bonus (k home_elo away_elo : ℝ) (hs as_ : ℕ) :
    (processGameHFB k 0 home_elo away_elo hs as_).1 - home_elo =
      -((processGameHFB k 0 home_elo away_elo hs as_).2 - away_elo) := by
  have hsum : (actualScores hs as_).1 + (actualScores hs as_).2 = 1 := by
    unfold actualScores
    split_ifs <;> norm_num
  simp only [processGameHFB]
  linear_combination k * movMultiplier hs as_ * hsum

/-- C3 counterexample: a tie between two teams with equal pre-game ratings
(both `1500`, score 21-21) does not leave the home rating unchanged — the
hard-coded 65-point home-field bonus makes `expected_home > 0.5`, so the
home delta is non-zero, refuting "whenever the two teams' pre-game ratings
are equal the rating delta applied to each team is exactly 0". -/
theorem C3_counterexample_equal_ratings_tie_nonzero_delta :
    (processGame 32 1500 1500 21 21).1 ≠ 1500 := by
  have hact : actualScores 21 21 = (0.5, 0.5) := by norm_num [actualScores]
  have hmov : movMultiplier 21 21 = 1 := by
    norm_num [movMultiplier, Real.log_one]
  apply ne_of_lt
  simp only [processGame, processGameHFB, hact, hmov]
  show (1500 : ℝ) + 32 * 1 *
      (0.5 - 1 / (1 + (10 : ℝ) ^ (((1500 : ℝ) - (1500 + 65)) / 400))) < 1500
  have hx1 : (10 : ℝ) ^ (((1500 : ℝ) - (1500 + 65)) / 400) < 1 :=
    Real.rpow_lt_one_of_one_lt_of_neg (by norm_num) (by norm_num)
  have hx0 : (0 : ℝ) < (10 : ℝ) ^ (((1500 : ℝ) - (1500 + 65)) / 400) :=
    Real.rpow_pos_of_pos (by norm_num) _
  have he : (1 : ℝ) / 2 < 1 / (1 + (10 : ℝ) ^ (((1500 : ℝ) - (1500 + 65)) / 400)) := by
    apply one_div_lt_one_div_of_lt
    · linarith
    · linarith
  have h05 : (0.5 : ℝ) = 1 / 2 := by norm_num
  rw [h05]
  linarith

/-- C3 amended: ties use `actual_home = actual_away = 0.5`, and the per-game
delta is exactly `0` for a tie precisely when the *adjusted* ratings agree,
i.e. when the away rating equals the home rating plus the 65-point bonus
(for any K-factor); equal raw ratings alone do not give a zero delta. -/
theorem C3_amended_tie_zero_delta_at_equal_adjusted_ratings (k home_elo : ℝ) (s : ℕ) :
    actualScores s s = (0.5, 0.5) ∧
      processGame k home_elo (home_elo + 65) s s = (home_elo, home_elo + 65) := by
  have hact : actualScores s s = (0.5, 0.5) := by
    unfold actualScores
    simp [lt_irrefl]
  refine ⟨hact, ?_⟩
  simp only [processGame, processGameHFB, hact]
  have h0 : ((home_elo + 65) - (home_elo + 65)) / 400 = 0 := by ring
  rw [h0, Real.rpow_zero]
  norm_num

/-! ## Claims about the bulk rating fold -/

/-- C9 counterexample: in a state holding teams `1` and `2`, a first game
referencing the unknown team `3` makes the whole fold return an error; the
perfectly well-formed second game (teams `1` and `2`) is never processed and
no skipped-record report exists, refuting "that single game is skipped, the
fold continues with the remaining games, and the skipped records are
reported". -/
theorem C9_counterexample_missing_team_aborts_whole_fold :
    replay [(1, (1500 : ℝ)), (2, 1500)]
      [⟨3, 1, 21, 14⟩, ⟨1, 2, 10, 7⟩] = Except.error 3 := rfl

/-- C9 amended: a game whose home team id is absent from the rating state
aborts the entire fold immediately with that id as the error — the
remaining games are not processed and no skip report is produced
(Python's `KeyError` propagates out of the loop). -/
theorem C9_amended_missing_team_aborts_fold (state : RatingState) (g : GameRec)
    (rest : List GameRec) (h : findRating g.home_team_id state = none) :
    replay state (g :: rest) = Except.error g.home_team_id := by
  unfold replay
  rw [h]

/-- Witness for the amended C9 theorem at a concrete state and game list. -/
theorem C9_amended_missing_team_aborts_fold_witness :
    findRating 7 [(1, (1500 : ℝ))] = none ∧
      replay [(1, (1500 : ℝ))] [⟨7, 1, 0, 0⟩] = Except.error 7 :=
  ⟨rfl, C9_amended_missing_team_aborts_fold _ _ _ rfl⟩

/-! ## Claims about the factor scoring model -/

/-- C5: with the dome flag set, the weather factor is exactly `+4.0`, for
every combination of (present or absent) temperature, wind-speed and
precipitation values. -/
theorem C5_dome_weather_factor_always_four
    (temperature wind_speed precipitation : Option ℚ) :
    calculate_weather_factor temperature wind_speed true precipitation = 4 := rfl

/-- C6: for every pair of conferences, the conference factor is
antisymmetric under swapping home and away. -/
theorem C6_conference_factor_antisymmetric (A B : String) :
    calculate_conference_factor A B = -calculate_conference_factor B A := by
  unfold calculate_conference_factor
  cases hA : power5.contains A <;> cases hB : power5.contains B <;>
    simp [hA, hB] <;> ring

/-- C7 counterexample: at predicted spread `0` against a market line of
`10`, the absolute difference is `10 ≥ 3`, and the code's factor is `+4`
while the claim's signed reading (toward the side the model favors relative
to the market, the direction named by the code's own line-167 comparison)
demands `-4`: the code's factor carries no sign. -/
theorem C7_counterexample_factor_never_signed :
    calculate_betting_line_value (some 10) 0 = 4 ∧
      bettingLineValueClaimed (some 10) 0 = -4 := by
  constructor <;> norm_num [calculate_betting_line_value, bettingLineValueClaimed]

/-- C7 amended: the market-value factor is `0` when no market spread is
present and when the absolute model-market difference is below `3`; at
difference `≥ 3` it equals `min(0.5 * difference, 4.0)` and is always
strictly positive (credited as-is to the home side), regardless of which
side the model favors relative to the market. -/
theorem C7_amended_market_value_magnitude_unsigned (p v : ℚ) :
    calculate_betting_line_value none p = 0 ∧
      (|p - v| < 3 → calculate_betting_line_value (some v) p = 0) ∧
      (|p - v| ≥ 3 →
        calculate_betting_line_value (some v) p = min (|p - v| * 0.5) 4 ∧
          0 < calculate_betting_line_value (some v) p) := by
  refine ⟨rfl, ?_, ?_⟩
  · intro h
    simp only [calculate_betting_line_value]
    rw [if_neg (not_le.mpr h)]
  · intro h
    refine ⟨?_, ?_⟩
    · simp only [calculate_betting_line_value]
      rw [if_pos h]
    · simp only [calculate_betting_line_value]
      rw [if_pos h]
      have h3 : (0 : ℚ) < |p - v| * 0.5 := by nlinarith [abs_nonneg (p - v)]
      exact lt_min h3 (by norm_num)

/-- Witness for the amended C7 theorem at predicted spread `0` against a
market line of `10`. -/
theorem C7_amended_market_value_magnitude_unsigned_witness :
    |(0 : ℚ) - 10| ≥ 3 ∧
      (calculate_betting_line_value (some 10) 0 = min (|(0 : ℚ) - 10| * 0.5) 4 ∧
        0 < calculate_betting_line_value (some 10) 0) :=
  ⟨by norm_num, (C7_amended_market_value_magnitude_unsigned 0 10).2.2 (by norm_num)⟩

/-- C8: a non-null recommended bet is issued only if a market spread is
present and the absolute edge between the model's predicted spread and that
line exceeds `1.5`; with no market spread the recommendation is always
null. -/
theorem C8_recommendation_needs_line_and_edge (ctx : PredContext) :
    ((generate_prediction ctx).recommended_bet ≠ none →
      ∃ v, ctx.vegas_spread = some v ∧
        (1.5 : ℚ) < |(generate_prediction ctx).spread - v|) ∧
      (ctx.vegas_spread = none → (generate_prediction ctx).recommended_bet = none) := by
  constructor
  · intro hb
    have hb' : recommended_bet_calc ctx ≠ none := hb
    rcases hv : ctx.vegas_spread with _ | v
    · exfalso
      apply hb'
      unfold recommended_bet_calc
      rw [hv]
      split <;> rfl
    · refine ⟨v, rfl, ?_⟩
      show (1.5 : ℚ) < |total_score ctx - v|
      have heq : recommended_bet_calc ctx =
          if 0 < total_score ctx then
            (if v ≠ 0 ∧ v + 1.5 < total_score ctx then some true else none)
          else
            (if v ≠ 0 ∧ |v| + 1.5 < |total_score ctx| then some false else none) := by
        unfold recommended_bet_calc
        rw [hv]
      rw [heq] at hb'
      split_ifs at hb' with ht hc hc2
      · have h2 := hc.2
        have hle : total_score ctx - v ≤ |total_score ctx - v| := le_abs_self _
        linarith
      · exact absurd rfl hb'
      · have h2 := hc2.2
        have habs : |total_score ctx| - |v| ≤ |total_score ctx - v| :=
          abs_sub_abs_le_abs_sub _ _
        linarith
      · exact absurd rfl hb'
  · intro hv
    show recommended_bet_calc ctx = none
    unfold recommended_bet_calc
    rw [hv]
    split <;> rfl

/-- Witness context for C8: dome game, SEC home against a MAC road team,
market line `1`. -/
def c8ctx : PredContext :=
  ⟨"SEC", "Mid-American", none, none, true, some 1, none, false⟩

/-- Witness for the C8 theorem: on `c8ctx` the engine does recommend a bet,
and the promised market line and `> 1.5` edge follow from the theorem. -/
theorem C8_recommendation_needs_line_and_edge_witness :
    ∃ v, c8ctx.vegas_spread = some v ∧
      (1.5 : ℚ) < |(generate_prediction c8ctx).spread - v| :=
  (C8_recommendation_needs_line_and_edge c8ctx).1 (by
    have h1 : "SEC" ∈ power5 := by decide
    have h2 : "Mid-American" ∉ power5 := by decide
    norm_num [generate_prediction, recommended_bet_calc, total_score, base_prediction,
      calculate_weather_factor, calculate_conference_factor, calculate_home_field_factor,
      calculate_betting_line_value, conference_power_ratings, c8ctx, h1, h2,
      abs_of_nonneg, min_def]
    exact Option.some_ne_none true)

/-- C10: a market spread of exactly `0.0` yields a null recommended bet and
a null edge, exactly as an absent spread does, even though the
betting-line-value factor is still computed from that zero spread (which
distinguishes a zero line from a missing line). -/
theorem C10_zero_spread_null_bet_and_edge (ctx : PredContext)
    (h : ctx.vegas_spread = some 0) :
    (generate_prediction ctx).recommended_bet = none ∧
      (generate_prediction ctx).edge = none ∧
      (generate_prediction ctx).betting_value =
        calculate_betting_line_value (some 0) (base_prediction ctx) ∧
      ∃ p : ℚ, calculate_betting_line_value (some 0) p ≠
        calculate_betting_line_value none p := by
  refine ⟨?_, ?_, ?_, ⟨10, by norm_num [calculate_betting_line_value]⟩⟩
  · show recommended_bet_calc ctx = none
    unfold recommended_bet_calc
    rw [h]
    split <;> simp
  · show edge_calc ctx = none
    unfold edge_calc
    rw [h]
    simp
  · show calculate_betting_line_value ctx.vegas_spread (base_prediction ctx) = _
    rw [h]

/-- Witness context for C10: an outdoor same-conference game carrying a
zero market line. -/
def c10ctx : PredContext :=
  ⟨"SEC", "SEC", none, none, false, some 0, none, false⟩

/-- Witness for the C10 theorem at `c10ctx`. -/
theorem C10_zero_spread_null_bet_and_edge_witness :
    (generate_prediction c10ctx).recommended_bet = none ∧
      (generate_prediction c10ctx).edge = none ∧
      (generate_prediction c10ctx).betting_value =
        calculate_betting_line_value (some 0) (base_prediction c10ctx) ∧
      ∃ p : ℚ, calculate_betting_line_value (some 0) p ≠
        calculate_betting_line_value none p :=
  C10_zero_spread_null_bet_and_edge c10ctx rfl
